import Mathlib

set_option maxRecDepth 8192

/-!
Formal model of the isminet UniFi Network API client library.

The embedding covers the parts of the source the claims are about:

* `isminet/clients/base.py`: the `with_retry` decorator, the
  `_handle_error_response` status-to-error mapping, and the
  `response_model` dispatch inside `BaseAPIClient._request`;
* `isminet/clients/unifi.py`: `UnifiClient._get_list_response`;
* `isminet/models/wireless.py` (`RadioSettings`),
  `isminet/models/devices.py` (`WifiStats`, `PortStats`, `Client`),
  `isminet/models/mixins.py` (`WifiMixin.validate_channel_width`),
  `isminet/models/network.py` (`VLANConfiguration`): the pydantic
  field and model validators, run in field-declaration order as
  pydantic v2 does.

Python `int` fields are modelled as `Int`, `float` fields as `Rat`
(only their sign and comparisons matter here), strings as `String`.
A model construction is modelled as an `Except String` computation
running the declared constraints and validators in order; it succeeds
iff every validator accepts, which matches "raises a ValidationError
iff some validator fails" (pydantic collects all failures, but the
raise-or-succeed outcome is the same as for this first-failure model).
Optional fields that no claim exercises are omitted from the input
structures: they default to `None` in the source, and every validator
on them is skipped for `None`.
-/

/-! ## JSON values (the result of `response.json()`) -/

/-- A parsed JSON document. -/
inductive Json where
  | null
  | bool (b : Bool)
  | num (n : Int)
  | str (s : String)
  | arr (items : List Json)
  | obj (fields : List (String × Json))

/-- Dictionary lookup: `data["k"]` / `"k" in data` on a JSON object.
Non-objects have no keys. -/
def jsonGet (j : Json) (key : String) : Option Json :=
  match j with
  | .obj fields => fields.lookup key
  | _ => none

/-- Python truthiness of a JSON value (`bool(x)`): `None`, `False`, `0`,
`""`, `[]` and `{}` are falsy. -/
def pyTruthy : Json → Bool
  | .null => false
  | .bool b => b
  | .num n => n != 0
  | .str s => s != ""
  | .arr items => !items.isEmpty
  | .obj fields => !fields.isEmpty

/-! ## Substring containment (for "the error message contains ...") -/

/-- Boolean list-prefix test. -/
def prefB : List Char → List Char → Bool
  | [], _ => true
  | _ :: _, [] => false
  | a :: as, b :: bs => a = b && prefB as bs

/-- The list `sub` occurs contiguously inside `hay`. -/
def charsContain (hay sub : List Char) : Bool :=
  hay.tails.any (fun t => prefB sub t)

/-- The string `sub` occurs contiguously inside `hay`. -/
def strContainsB (hay sub : String) : Bool :=
  charsContain hay.toList sub.toList

theorem prefB_self (l : List Char) : prefB l l = true := by
  induction l with
  | nil => rfl
  | cons x xs ih => simp [prefB, ih]

theorem charsContain_cons (x : Char) (l sub : List Char) :
    charsContain (x :: l) sub = (prefB sub (x :: l) || charsContain l sub) := by
  simp [charsContain, List.tails]

theorem charsContain_self (m : List Char) : charsContain m m = true := by
  cases m with
  | nil => rfl
  | cons x xs =>
    rw [charsContain_cons]
    simp [prefB_self]

theorem charsContain_append_right (a b sub : List Char) (h : charsContain b sub = true) :
    charsContain (a ++ b) sub = true := by
  induction a with
  | nil => simpa using h
  | cons x xs ih =>
    rw [List.cons_append, charsContain_cons, ih]
    simp

theorem prefB_append_extend (sub l b : List Char) (h : prefB sub l = true) :
    prefB sub (l ++ b) = true := by
  induction sub generalizing l with
  | nil => rfl
  | cons s ss ih =>
    cases l with
    | nil => simp [prefB] at h
    | cons x xs =>
      simp only [prefB, Bool.and_eq_true, decide_eq_true_eq] at h
      rw [List.cons_append]
      simp only [prefB, Bool.and_eq_true, decide_eq_true_eq]
      exact ⟨h.1, ih xs h.2⟩

theorem charsContain_nil_sub (l : List Char) : charsContain l [] = true := by
  cases l with
  | nil => rfl
  | cons x xs => rw [charsContain_cons]; simp [prefB]

theorem charsContain_append_left (a b sub : List Char) (h : charsContain a sub = true) :
    charsContain (a ++ b) sub = true := by
  induction a with
  | nil =>
    cases sub with
    | nil => exact charsContain_nil_sub b
    | cons s ss => simp [charsContain, List.tails, prefB] at h
  | cons x xs ih =>
    rw [charsContain_cons] at h
    rw [List.cons_append, charsContain_cons]
    rcases Bool.or_eq_true_iff.mp h with h1 | h2
    · have : prefB sub ((x :: xs) ++ b) = true := prefB_append_extend sub (x :: xs) b h1
      rw [List.cons_append] at this
      rw [this]
      simp
    · rw [ih h2]
      simp

theorem toList_append (p m : String) : (p ++ m).toList = p.toList ++ m.toList := by
  obtain ⟨pd⟩ := p
  obtain ⟨md⟩ := m
  rfl

theorem strContains_of_suffix (p m : String) : strContainsB (p ++ m) m = true := by
  unfold strContainsB
  rw [toList_append]
  exact charsContain_append_right _ _ _ (charsContain_self _)

theorem strContains_of_mid (p mid q m : String)
    (h : charsContain mid.toList m.toList = true) :
    strContainsB (p ++ mid ++ q) m = true := by
  unfold strContainsB
  rw [toList_append, toList_append]
  exact charsContain_append_left _ _ _
    (charsContain_append_right _ _ _ h)

/-! ## The transport exception taxonomy

`base.py` imports `Timeout` from `requests` and `ConnectionError` from
`requests.exceptions`.  In the `requests` library the exception classes
are related by: `ConnectionError(RequestException)`,
`SSLError(ConnectionError)` (TLS handshake failures),
`ConnectTimeout(ConnectionError, Timeout)`, `Timeout(RequestException)`,
`ReadTimeout(Timeout)`.  The predicates below embed that hierarchy. -/

/-- Transport-level failures of one HTTP attempt. -/
inductive TransportExc where
  | connectionRefused
  | connectionReset
  | sslHandshake
  | connectTimeout
  | readTimeout
deriving DecidableEq

/-- Whether `isinstance(e, requests.exceptions.ConnectionError)` holds.
Note `SSLError` (TLS handshake failure) is a subclass of `ConnectionError`. -/
def isConnectionError : TransportExc → Bool
  | .connectionRefused => true
  | .connectionReset => true
  | .sslHandshake => true
  | .connectTimeout => true
  | .readTimeout => false

/-- Whether `isinstance(e, requests.Timeout)` holds. -/
def isTimeout : TransportExc → Bool
  | .connectTimeout => true
  | .readTimeout => true
  | _ => false

/-- Matched by the handler `except (ConnectionError, Timeout)`. -/
def caughtByRetry (e : TransportExc) : Bool :=
  isConnectionError e || isTimeout e

theorem caughtByRetry_true (e : TransportExc) : caughtByRetry e = true := by
  cases e <;> rfl

/-- An exception escaping one invocation of the wrapped function:
either a transport failure, or any other exception (which the retry
wrapper does not catch). -/
inductive PyError where
  | transport (e : TransportExc)
  | other (name : String)
deriving DecidableEq

/-! ## `with_retry` (base.py lines 52-115)

The decorated function is modelled as `f : Nat → Except PyError R`,
giving the outcome of its `i`-th invocation (0-based).  The result
records the outcome together with the total number of invocations. -/

/-- Outcome of calling the wrapped function. -/
inductive RetryResult (R : Type) where
  | ok (r : R) (calls : Nat)
  /-- The APIError wrapping the last transport error on exhaustion. -/
  | apiError (lastErr : TransportExc) (calls : Nat)
  | uncaught (e : PyError) (calls : Nat)
deriving DecidableEq

/-- The `for attempt in range(max_retries)` loop of `wrapper`.
`fuel` is the number of loop iterations left; `calls` the number of
invocations of `func` so far.  On a caught exception at the last
iteration the loop breaks and `APIError` is raised; at `fuel = 0`
(only reachable when `max_retries = 0`) the trailing
`return func(*args, **kwargs)` runs with no exception handler. -/
def wrapperGo {R : Type} (f : Nat → Except PyError R) : Nat → Nat → RetryResult R
  | 0, calls =>
    match f calls with
    | .ok r => .ok r (calls + 1)
    | .error e => .uncaught e (calls + 1)
  | fuel2 + 1, calls =>
    match f calls with
    | .ok r => .ok r (calls + 1)
    | .error (.transport e) =>
      if caughtByRetry e then
        if fuel2 = 0 then .apiError e (calls + 1)
        else wrapperGo f fuel2 (calls + 1)
      else .uncaught (.transport e) (calls + 1)
    | .error (.other s) => .uncaught (.other s) (calls + 1)

/-- Calling `with_retry(max_retries)(func)()`. -/
def withRetryCall {R : Type} (maxRetries : Nat) (f : Nat → Except PyError R) :
    RetryResult R :=
  wrapperGo f maxRetries 0

/-- A transport that fails with `e` on its first `N` invocations and
succeeds (returning `r`) from invocation `N+1` on. -/
def failThenOk {R : Type} (N : Nat) (e : TransportExc) (r : R) :
    Nat → Except PyError R :=
  fun i => if i < N then .error (.transport e) else .ok r

theorem wrapperGo_step_ok {R : Type} (f : Nat → Except PyError R) (fuel2 calls : Nat)
    (r : R) (hf : f calls = .ok r) :
    wrapperGo f (fuel2 + 1) calls = .ok r (calls + 1) := by
  simp only [wrapperGo, hf]

theorem wrapperGo_step_err {R : Type} (f : Nat → Except PyError R) (fuel2 calls : Nat)
    (e : TransportExc) (hf : f calls = .error (.transport e)) (hne : fuel2 ≠ 0) :
    wrapperGo f (fuel2 + 1) calls = wrapperGo f fuel2 (calls + 1) := by
  simp only [wrapperGo, hf, caughtByRetry_true, if_true, if_neg hne]

theorem wrapperGo_last_err {R : Type} (f : Nat → Except PyError R) (calls : Nat)
    (e : TransportExc) (hf : f calls = .error (.transport e)) :
    wrapperGo f 1 calls = .apiError e (calls + 1) := by
  simp only [wrapperGo, hf, caughtByRetry_true, if_true]

theorem wrapperGo_mock_ok {R : Type} (N : Nat) (e : TransportExc) (r : R) :
    ∀ fuel calls, N < calls + fuel → calls ≤ N →
    wrapperGo (failThenOk N e r) fuel calls = .ok r (N + 1) := by
  intro fuel
  induction fuel with
  | zero => intro calls h1 h2; omega
  | succ fuel2 ih =>
    intro calls h1 h2
    rcases Nat.lt_or_ge calls N with hlt | hge
    · have hf : failThenOk N e r calls = .error (.transport e) := by
        simp [failThenOk, hlt]
      have hne : fuel2 ≠ 0 := by omega
      rw [wrapperGo_step_err _ _ _ _ hf hne]
      exact ih (calls + 1) (by omega) (by omega)
    · have hceq : calls = N := by omega
      have hf : failThenOk N e r calls = .ok r := by
        simp [failThenOk, hceq]
      rw [wrapperGo_step_ok _ _ _ _ hf, hceq]

theorem wrapperGo_mock_exhaust {R : Type} (N : Nat) (e : TransportExc) (r : R) :
    ∀ fuel calls, 0 < fuel → calls + fuel ≤ N →
    wrapperGo (failThenOk N e r) fuel calls = .apiError e (calls + fuel) := by
  intro fuel
  induction fuel with
  | zero => intro calls h0 _; omega
  | succ fuel2 ih =>
    intro calls _ hle
    have hlt : calls < N := by omega
    have hf : failThenOk N e r calls = .error (.transport e) := by
      simp [failThenOk, hlt]
    by_cases hz : fuel2 = 0
    · subst hz
      rw [wrapperGo_last_err _ _ _ hf]
    · rw [wrapperGo_step_err _ _ _ _ hf hz]
      have := ih (calls + 1) (Nat.pos_of_ne_zero hz) (by omega)
      rw [this]
      congr 1
      omega

/-- Behaviour of `with_retry(3)` on a transport failing exactly `N`
times before succeeding: success in `N+1` calls when `N < 3`, and an
`APIError` wrapping the last transport error after exactly `3` calls
when `N ≥ 3`. -/
theorem withRetry3_mock {R : Type} (N : Nat) (e : TransportExc) (r : R) :
    (N < 3 → withRetryCall 3 (failThenOk N e r) = .ok r (N + 1)) ∧
    (3 ≤ N → withRetryCall 3 (failThenOk N e r) = .apiError e 3) := by
  constructor
  · intro h
    exact wrapperGo_mock_ok N e r 3 0 (by omega) (by omega)
  · intro h
    exact wrapperGo_mock_exhaust N e r 3 0 (by omega) (by omega)

/-! ## `_handle_error_response` (base.py lines 170-205) -/

/-- An HTTP response as seen by `_handle_error_response`: the status
code, the parsed JSON body (`none` when `response.json()` raises a
`ValueError`, e.g. a JSON decode error), and the raw `response.text`. -/
structure HttpResponse where
  statusCode : Nat
  body : Option Json
  text : String

/-- The attribute `response.ok` of the requests library: status code below 400. -/
def responseOk (r : HttpResponse) : Bool := r.statusCode < 400

/-- The error classes raised by the client (`APIError` and its
subclasses in base.py lines 19-49). -/
inductive ApiErrorKind where
  | authentication
  | permission
  | notFound
  | responseValidation
  | generic
deriving DecidableEq

structure ApiErr where
  kind : ApiErrorKind
  msg : String
deriving DecidableEq

/-- An uncaught Python runtime exception escaping the message
extraction of `_handle_error_response`: its `except` clause (line 195)
catches only `ValueError` and `KeyError`, so an `AttributeError` or
`TypeError` raised while inspecting an unconventional body propagates
out of the method. -/
inductive PyRuntimeExc where
  | attributeError (msg : String)
  | typeError (msg : String)
deriving DecidableEq

/-- Python `str(e)` of such an exception: its message. -/
def pyExcStr : PyRuntimeExc → String
  | .attributeError m => m
  | .typeError m => m

/-- Python `type(x).__name__` for a parsed JSON value (JSON numbers are
modelled as ints here). -/
def pyTypeName : Json → String
  | .null => "NoneType"
  | .bool _ => "bool"
  | .num _ => "int"
  | .str _ => "str"
  | .arr _ => "list"
  | .obj _ => "dict"

mutual

/-- Python `repr()` of a parsed JSON value, as used by `str()` inside
containers.  The quote choice and character escaping CPython applies
inside string reprs is not modelled; this rendering only ever feeds the
message text of generic errors for unconventional bodies, about which
no claim states anything. -/
def pyReprJson : Json → String
  | .null => "None"
  | .bool true => "True"
  | .bool false => "False"
  | .num n => toString n
  | .str s => "\x27" ++ s ++ "\x27"
  | .arr items => "[" ++ pyReprJsonList items ++ "]"
  | .obj fields => "\x7b" ++ pyReprJsonFields fields ++ "\x7d"

/-- Comma-separated reprs of the elements of a list. -/
def pyReprJsonList : List Json → String
  | [] => ""
  | [v] => pyReprJson v
  | v :: rest => pyReprJson v ++ ", " ++ pyReprJsonList rest

/-- Comma-separated reprs of the entries of a dict. -/
def pyReprJsonFields : List (String × Json) → String
  | [] => ""
  | [(k, v)] => "\x27" ++ k ++ "\x27: " ++ pyReprJson v
  | (k, v) :: rest =>
    "\x27" ++ k ++ "\x27: " ++ pyReprJson v ++ ", " ++ pyReprJsonFields rest

end

/-- Python `str()` of a parsed JSON value, as the f-string of line 205
applies it: a str renders as itself, anything else as its repr. -/
def pyStrJson : Json → String
  | .str s => s
  | v => pyReprJson v

/-- Python string concatenation `pre + v` as in lines 199-203: succeeds
only when the extracted message value is a str; for any other value the
`+` raises a TypeError. -/
def pyConcatStr (pre : String) (v : Json) : Except PyRuntimeExc String :=
  match v with
  | .str s => .ok (pre ++ s)
  | _ => .error (.typeError
      ("can only concatenate str (not \"" ++ pyTypeName v ++ "\") to str"))

/-- Lines 190-196 of base.py: compute `error_message`.
On a JSON parse failure (ValueError, caught) the fallback is
`response.text or "Unknown error"`.  On a parsed body,
`error_data.get("message", "Unknown error")` raises AttributeError
when the body is not a dict; then `"msg" in error_data["meta"]` raises
TypeError when meta is not a container, is a substring test on a str
meta and a membership test on a list meta — and indexing either of
those with the string key `"msg"` raises TypeError (the str-meta
message is the CPython 3.10 wording).  AttributeError and TypeError are
NOT caught by the `except (ValueError, KeyError)` clause. -/
def computeErrorMessage (r : HttpResponse) : Except PyRuntimeExc Json :=
  match r.body with
  | none =>
    .ok (.str (if r.text = "" then "Unknown error" else r.text))
  | some b =>
    match b with
    | .obj fields =>
      let msg0 : Json := (fields.lookup "message").getD (.str "Unknown error")
      match fields.lookup "meta" with
      | none => .ok msg0
      | some m =>
        match m with
        | .obj mfields =>
          match mfields.lookup "msg" with
          | some v => .ok v
          | none => .ok msg0
        | .str s =>
          if strContainsB s "msg" then
            .error (.typeError "string indices must be integers")
          else .ok msg0
        | .arr items =>
          if items.any (fun e =>
              match e with
              | Json.str s => s == "msg"
              | _ => false) then
            .error (.typeError "list indices must be integers or slices, not str")
          else .ok msg0
        | .null =>
          .error (.typeError "argument of type \x27NoneType\x27 is not iterable")
        | .bool _ =>
          .error (.typeError "argument of type \x27bool\x27 is not iterable")
        | .num _ =>
          .error (.typeError "argument of type \x27int\x27 is not iterable")
    | _ =>
      .error (.attributeError
        ("\x27" ++ pyTypeName b ++ "\x27 object has no attribute \x27get\x27"))

/-- Lines 198-205: map the status code to the raised error,
concatenating the extracted message for the three dedicated statuses
(TypeError when it is not a string) and f-string-rendering it for the
generic branch (which works for every value). -/
def handleErrorResponse (r : HttpResponse) : Except PyRuntimeExc ApiErr := do
  let em ← computeErrorMessage r
  if r.statusCode = 401 then
    let s ← pyConcatStr "Authentication failed: " em
    pure ⟨.authentication, s⟩
  else if r.statusCode = 403 then
    let s ← pyConcatStr "Permission error: " em
    pure ⟨.permission, s⟩
  else if r.statusCode = 404 then
    let s ← pyConcatStr "Resource not found: " em
    pure ⟨.notFound, s⟩
  else
    pure ⟨.generic, "HTTP " ++ toString r.statusCode ++ ": " ++ pyStrJson em⟩

/-- The error `_request` lets escape for a non-success response
(base.py lines 253-277): `AuthenticationError`, `PermissionError` and
`NotFoundError` are re-raised unchanged by their dedicated handler,
while a plain `APIError` from the generic branch AND any uncaught
AttributeError/TypeError escaping `_handle_error_response` are caught
by `except Exception` and re-raised as a generic APIError with message
"Unexpected error: " followed by the exception text. -/
def requestErrorFor (r : HttpResponse) : ApiErr :=
  match handleErrorResponse r with
  | .ok e =>
    match e.kind with
    | .authentication => e
    | .permission => e
    | .notFound => e
    | _ => ⟨.generic, "Unexpected error: " ++ e.msg⟩
  | .error exc => ⟨.generic, "Unexpected error: " ++ pyExcStr exc⟩

/-! ## The `response_model` dispatch in `_request` (base.py lines 256-267) -/

/-- Which constructor call `_request` performs when a `response_model`
was supplied. -/
inductive ModelDispatch where
  | fromFirstItem (item : Json)
  | emptyModel
  | fromWholeResponse (d : Json)

/-- base.py lines 257-266:
if `"data" in data and isinstance(data["data"], list) and data["data"]`
use the FIRST item; elif `"data" in data and not data["data"]` build an
empty model; else parse the ENTIRE response dict. -/
def dispatchResponseModel (data : Json) : ModelDispatch :=
  match jsonGet data "data" with
  | some d =>
    match d with
    | .arr (x :: _) => .fromFirstItem x
    | _ => if pyTruthy d then .fromWholeResponse data else .emptyModel
  | none => .fromWholeResponse data

/-- What `_request` returns when a `response_model` is supplied. -/
inductive RequestModelResult (M : Type) where
  | one (m : M)
  | many (ms : List M)
deriving DecidableEq

/-- The model value `_request` builds, for a model with constructor
`construct` and no-argument construction `emptyM`. -/
def requestModelApply {M : Type} (construct : Json → M) (emptyM : M) (data : Json) :
    RequestModelResult M :=
  match dispatchResponseModel data with
  | .fromFirstItem x => .one (construct x)
  | .emptyModel => .one emptyM
  | .fromWholeResponse d => .one (construct d)

/-- Modelled from the spec sentence: "the `data` field of the envelope
is extracted and used to construct either a single model instance
(object) or a list of model instances (array)".  Stated only to be
compared against `requestModelApply`, the behaviour of the code. -/
def requestModelApplySpec {M : Type} (construct : Json → M) (data : Json) :
    Option (RequestModelResult M) :=
  match jsonGet data "data" with
  | some (.arr items) => some (.many (items.map construct))
  | some d => some (.one (construct d))
  | none => none

/-! ## `UnifiClient._get_list_response` (unifi.py lines 31-51)

The collection methods `get_devices`, `get_clients`,
`get_network_profiles`, `get_process_info` and `get_service_status`
each fetch the raw envelope with `self.get(endpoint)` (no
`response_model`) and pass it to `_get_list_response` with their model
class; `construct` below stands for that model's constructor. -/

/-- unifi.py lines 49-51: return `[]` when the `"data"` key is missing
or its value is not a list, else construct a model per item. -/
def getListResponse {M : Type} (construct : Json → Except String M) (resp : Json) :
    Except String (List M) :=
  match jsonGet resp "data" with
  | some (.arr items) => items.mapM construct
  | some _ => .ok []
  | none => .ok []

/-- The envelope lacks a `"data"` key, or its value is not a list. -/
def dataMissingOrNotList (resp : Json) : Bool :=
  match jsonGet resp "data" with
  | some (.arr _) => false
  | _ => true

/-! ## Claims C1 and C2: retry behaviour -/

/-- C1 (amended): with the default `max_retries = 3`, a transport that
fails transiently (connection error or timeout) on exactly its first
`N` invocations and succeeds afterwards makes the wrapped call return
the success result after `N + 1` invocations when `N < 3`, and raise an
`APIError` wrapping the last transport exception after exactly `3`
invocations (that is, `min(N+1, max_retries)`, not `min(N,
max_retries) + 1`) when `N ≥ 3`. -/
theorem c1_retry_bound (N : Nat) (e : TransportExc)
    (_htransient : isConnectionError e = true ∨ isTimeout e = true) :
    (N < 3 → withRetryCall 3 (failThenOk N e 0) = RetryResult.ok 0 (N + 1)) ∧
    (3 ≤ N → withRetryCall 3 (failThenOk N e 0) = RetryResult.apiError e 3) :=
  withRetry3_mock N e 0

theorem c1_retry_bound_witness :
    withRetryCall 3 (failThenOk 2 TransportExc.connectionRefused 0) =
      RetryResult.ok 0 3 ∧
    withRetryCall 3 (failThenOk 5 TransportExc.readTimeout 0) =
      RetryResult.apiError TransportExc.readTimeout 3 :=
  ⟨(c1_retry_bound 2 TransportExc.connectionRefused (Or.inl rfl)).1 (by decide),
   (c1_retry_bound 5 TransportExc.readTimeout (Or.inr rfl)).2 (by decide)⟩

/-- C1 counterexample: at `N = 3 = max_retries` the loop makes exactly
3 invocations of the underlying function before raising, not
`min(3,3) + 1 = 4` as the claim states. -/
theorem c1_counterexample :
    withRetryCall 3 (failThenOk 3 TransportExc.connectionRefused 0) =
      RetryResult.apiError TransportExc.connectionRefused 3 ∧
    (3 : Nat) ≠ min 3 3 + 1 := by
  constructor
  · decide
  · decide

/-- C2 (amended): a TLS handshake failure is raised by requests as
`SSLError`, a subclass of `ConnectionError`, so it IS matched by
`except (ConnectionError, Timeout)` and retried exactly like a
connection-refused failure: with `max_retries = 3`, success in `N + 1`
attempts when the handshake failure clears within `N < 3` attempts, and
an `APIError` wrapping the SSL error after exactly 3 attempts (not 1)
when it persists. -/
theorem c2_ssl_retried (N : Nat) :
    isConnectionError TransportExc.sslHandshake = true ∧
    (N < 3 → withRetryCall 3 (failThenOk N TransportExc.sslHandshake 0) =
      RetryResult.ok 0 (N + 1)) ∧
    (3 ≤ N → withRetryCall 3 (failThenOk N TransportExc.sslHandshake 0) =
      RetryResult.apiError TransportExc.sslHandshake 3) :=
  ⟨rfl, (withRetry3_mock N TransportExc.sslHandshake 0).1,
   (withRetry3_mock N TransportExc.sslHandshake 0).2⟩

theorem c2_ssl_retried_witness :
    withRetryCall 3 (failThenOk 1 TransportExc.sslHandshake 0) =
      RetryResult.ok 0 2 ∧
    withRetryCall 3 (failThenOk 9 TransportExc.sslHandshake 0) =
      RetryResult.apiError TransportExc.sslHandshake 3 :=
  ⟨(c2_ssl_retried 1).2.1 (by decide), (c2_ssl_retried 9).2.2 (by decide)⟩

/-- C2 counterexample: a transport failing with a TLS handshake error
on every attempt is invoked 3 times before the `APIError` is raised,
not exactly once as the claim states. -/
theorem c2_counterexample :
    withRetryCall 3 (failThenOk 4 TransportExc.sslHandshake 0) =
      RetryResult.apiError TransportExc.sslHandshake 3 ∧
    (3 : Nat) ≠ 1 := by
  constructor
  · decide
  · decide

/-! ## Claim C3: status-to-error mapping -/

theorem strContains_append_left_str (s t m : String)
    (h : strContainsB t m = true) : strContainsB (s ++ t) m = true := by
  unfold strContainsB at h ⊢
  rw [toList_append]
  exact charsContain_append_right _ _ _ h

theorem exbind_ok_eq {E A B : Type} (a : A) (k : A → Except E B) :
    (Except.ok a >>= k : Except E B) = k a := rfl

theorem exbind_err_eq {E A B : Type} (e : E) (k : A → Except E B) :
    (Except.error e >>= k : Except E B) = Except.error e := rfl

theorem requestErrorFor_msg_401 (r : HttpResponse) (m : String)
    (hm : computeErrorMessage r = Except.ok (Json.str m))
    (h : r.statusCode = 401) :
    requestErrorFor r =
      ⟨ApiErrorKind.authentication, "Authentication failed: " ++ m⟩ := by
  unfold requestErrorFor handleErrorResponse
  simp only [hm, exbind_ok_eq]
  rw [if_pos h]
  rfl

theorem requestErrorFor_msg_403 (r : HttpResponse) (m : String)
    (hm : computeErrorMessage r = Except.ok (Json.str m))
    (h1 : r.statusCode ≠ 401) (h : r.statusCode = 403) :
    requestErrorFor r =
      ⟨ApiErrorKind.permission, "Permission error: " ++ m⟩ := by
  unfold requestErrorFor handleErrorResponse
  simp only [hm, exbind_ok_eq]
  rw [if_neg h1, if_pos h]
  rfl

theorem requestErrorFor_msg_404 (r : HttpResponse) (m : String)
    (hm : computeErrorMessage r = Except.ok (Json.str m))
    (h1 : r.statusCode ≠ 401) (h3 : r.statusCode ≠ 403)
    (h : r.statusCode = 404) :
    requestErrorFor r =
      ⟨ApiErrorKind.notFound, "Resource not found: " ++ m⟩ := by
  unfold requestErrorFor handleErrorResponse
  simp only [hm, exbind_ok_eq]
  rw [if_neg h1, if_neg h3, if_pos h]
  rfl

theorem requestErrorFor_msg_generic (r : HttpResponse) (m : String)
    (hm : computeErrorMessage r = Except.ok (Json.str m))
    (h1 : r.statusCode ≠ 401) (h3 : r.statusCode ≠ 403)
    (h4 : r.statusCode ≠ 404) :
    requestErrorFor r = ⟨ApiErrorKind.generic, "Unexpected error: " ++
      ("HTTP " ++ toString r.statusCode ++ ": " ++ m)⟩ := by
  unfold requestErrorFor handleErrorResponse
  simp only [hm, exbind_ok_eq]
  rw [if_neg h1, if_neg h3, if_neg h4]
  rfl

theorem requestErrorFor_escape (r : HttpResponse) (exc : PyRuntimeExc)
    (hexc : computeErrorMessage r = Except.error exc) :
    requestErrorFor r =
      ⟨ApiErrorKind.generic, "Unexpected error: " ++ pyExcStr exc⟩ := by
  unfold requestErrorFor handleErrorResponse
  simp only [hexc, exbind_err_eq]

/-- C3 (amended): for a non-success response on which the error-message
extraction of `_handle_error_response` completes and yields a string m
(any unparseable body, and any JSON-object body whose conventional
`meta.msg` / `message` fields hold strings), the raised error's kind is
determined by the status code — 401 authentication, 403 permission, 404
not-found, any other failing status a generic API error — and the
error's message contains m.  When the extraction instead raises an
uncaught AttributeError/TypeError (non-dict body, non-string message on
401/403/404, unconventional meta), the raised error is a generic
APIError regardless of the status code, so 401/403/404 then do NOT
yield their dedicated kinds. -/
theorem c3_status_error_mapping (r : HttpResponse) (m : String)
    (exc : PyRuntimeExc) (_hfail : responseOk r = false) :
    (computeErrorMessage r = Except.ok (Json.str m) →
      (((r.statusCode = 401 →
          (requestErrorFor r).kind = ApiErrorKind.authentication) ∧
        (r.statusCode = 403 →
          (requestErrorFor r).kind = ApiErrorKind.permission) ∧
        (r.statusCode = 404 →
          (requestErrorFor r).kind = ApiErrorKind.notFound) ∧
        (r.statusCode ≠ 401 → r.statusCode ≠ 403 → r.statusCode ≠ 404 →
          (requestErrorFor r).kind = ApiErrorKind.generic)) ∧
       strContainsB (requestErrorFor r).msg m = true)) ∧
    (computeErrorMessage r = Except.error exc →
      (requestErrorFor r).kind = ApiErrorKind.generic) := by
  constructor
  · intro hm
    constructor
    · refine ⟨?_, ?_, ?_, ?_⟩
      · intro h
        rw [requestErrorFor_msg_401 r m hm h]
      · intro h
        have h1 : r.statusCode ≠ 401 := by omega
        rw [requestErrorFor_msg_403 r m hm h1 h]
      · intro h
        have h1 : r.statusCode ≠ 401 := by omega
        have h3 : r.statusCode ≠ 403 := by omega
        rw [requestErrorFor_msg_404 r m hm h1 h3 h]
      · intro h1 h3 h4
        rw [requestErrorFor_msg_generic r m hm h1 h3 h4]
    · by_cases h1 : r.statusCode = 401
      · rw [requestErrorFor_msg_401 r m hm h1]
        exact strContains_of_suffix "Authentication failed: " m
      · by_cases h3 : r.statusCode = 403
        · rw [requestErrorFor_msg_403 r m hm h1 h3]
          exact strContains_of_suffix "Permission error: " m
        · by_cases h4 : r.statusCode = 404
          · rw [requestErrorFor_msg_404 r m hm h1 h3 h4]
            exact strContains_of_suffix "Resource not found: " m
          · rw [requestErrorFor_msg_generic r m hm h1 h3 h4]
            exact strContains_append_left_str "Unexpected error: " _ m
              (strContains_of_suffix ("HTTP " ++ toString r.statusCode ++ ": ") m)
  · intro hexc
    rw [requestErrorFor_escape r exc hexc]

/-- C3 counterexample: a 401 response whose body parses to a JSON array
makes `error_data.get` raise an AttributeError; the
`except (ValueError, KeyError)` clause does not catch it, `_request`
wraps it as a plain generic APIError, and no authentication error is
raised.  Likewise a 404 response with a null `message` value raises a
TypeError at the string concatenation and ends as a generic APIError
instead of a not-found error. -/
theorem c3_counterexample :
    (requestErrorFor ⟨401, some (Json.arr [Json.str "unauthorized"]), "x"⟩).kind =
      ApiErrorKind.generic ∧
    (requestErrorFor ⟨404, some (Json.obj [("message", Json.null)]), "x"⟩).kind =
      ApiErrorKind.generic ∧
    ApiErrorKind.generic ≠ ApiErrorKind.authentication ∧
    ApiErrorKind.generic ≠ ApiErrorKind.notFound := by
  refine ⟨rfl, rfl, ?_, ?_⟩
  · decide
  · decide

theorem c3_status_error_mapping_witness :
    (requestErrorFor ⟨401, some (Json.obj [("meta", Json.obj
        [("rc", Json.str "error"), ("msg", Json.str "Invalid API key")])]),
      ""⟩).kind = ApiErrorKind.authentication ∧
    strContainsB (requestErrorFor ⟨401, some (Json.obj [("meta", Json.obj
        [("rc", Json.str "error"), ("msg", Json.str "Invalid API key")])]),
      ""⟩).msg "Invalid API key" = true ∧
    (requestErrorFor ⟨500, some (Json.obj [("message", Json.str "boom")]),
      ""⟩).kind = ApiErrorKind.generic ∧
    strContainsB (requestErrorFor ⟨500, some (Json.obj
        [("message", Json.str "boom")]), ""⟩).msg "boom" = true ∧
    (requestErrorFor ⟨401, some (Json.arr []), ""⟩).kind =
      ApiErrorKind.generic :=
  ⟨((c3_status_error_mapping ⟨401, some (Json.obj [("meta", Json.obj
        [("rc", Json.str "error"), ("msg", Json.str "Invalid API key")])]), ""⟩
      "Invalid API key" (PyRuntimeExc.typeError "") (by decide)).1 rfl).1.1 rfl,
   ((c3_status_error_mapping ⟨401, some (Json.obj [("meta", Json.obj
        [("rc", Json.str "error"), ("msg", Json.str "Invalid API key")])]), ""⟩
      "Invalid API key" (PyRuntimeExc.typeError "") (by decide)).1 rfl).2,
   ((c3_status_error_mapping ⟨500, some (Json.obj [("message", Json.str "boom")]),
      ""⟩ "boom" (PyRuntimeExc.typeError "") (by decide)).1 rfl).1.2.2.2
      (by decide) (by decide) (by decide),
   ((c3_status_error_mapping ⟨500, some (Json.obj [("message", Json.str "boom")]),
      ""⟩ "boom" (PyRuntimeExc.typeError "") (by decide)).1 rfl).2,
   (c3_status_error_mapping ⟨401, some (Json.arr []), ""⟩ ""
      (PyRuntimeExc.attributeError
        "\x27list\x27 object has no attribute \x27get\x27")
      (by decide)).2 rfl⟩

/-! ## Claim C4: response_model construction -/

/-- C4 counterexample: for an envelope whose `data` field is the
two-element array `["a", "b"]`, `_request` with a `response_model`
constructs a single model from the first element only, whereas the
claim requires a list of model instances, one per element. -/
theorem c4_counterexample :
    requestModelApply (fun j => j) Json.null
        (Json.obj [("data", Json.arr [Json.str "a", Json.str "b"])]) =
      RequestModelResult.one (Json.str "a") ∧
    requestModelApplySpec (fun j => j)
        (Json.obj [("data", Json.arr [Json.str "a", Json.str "b"])]) =
      some (RequestModelResult.many [Json.str "a", Json.str "b"]) ∧
    RequestModelResult.one (Json.str "a") ≠
      RequestModelResult.many [Json.str "a", Json.str "b"] := by
  refine ⟨rfl, rfl, ?_⟩
  intro h
  cases h

/-- C4 (amended): when the successful response's `data` field holds a
non-empty array, `_request` constructs a single model instance from the
FIRST element of the array (never a list); when the `data` field holds
a single truthy non-array value (e.g. an object), it constructs the
model from the ENTIRE response dictionary, not from the data object;
and when the `data` field holds a falsy value (empty array, empty
object, null, 0, empty string, false) it constructs the model with no
arguments, the empty-default instance. -/
theorem c4_response_model_dispatch {M : Type} (construct : Json → M) (emptyM : M)
    (data : Json) :
    (∀ x xs, jsonGet data "data" = some (Json.arr (x :: xs)) →
      requestModelApply construct emptyM data =
        RequestModelResult.one (construct x)) ∧
    (∀ d, jsonGet data "data" = some d → (∀ items, d ≠ Json.arr items) →
      pyTruthy d = true →
      requestModelApply construct emptyM data =
        RequestModelResult.one (construct data)) ∧
    (∀ d, jsonGet data "data" = some d → pyTruthy d = false →
      requestModelApply construct emptyM data =
        RequestModelResult.one emptyM) := by
  refine ⟨?_, ?_, ?_⟩
  · intro x xs h
    simp [requestModelApply, dispatchResponseModel, h]
  · intro d h hna ht
    cases d with
    | arr items => exact absurd rfl (hna items)
    | null => simp [pyTruthy] at ht
    | bool b => simp [requestModelApply, dispatchResponseModel, h, ht]
    | num n => simp [requestModelApply, dispatchResponseModel, h, ht]
    | str s => simp [requestModelApply, dispatchResponseModel, h, ht]
    | obj fields => simp [requestModelApply, dispatchResponseModel, h, ht]
  · intro d h ht
    cases d with
    | null => simp [requestModelApply, dispatchResponseModel, h, pyTruthy]
    | bool b =>
      simp [pyTruthy] at ht
      subst ht
      simp [requestModelApply, dispatchResponseModel, h, pyTruthy]
    | num n =>
      simp [pyTruthy] at ht
      subst ht
      simp [requestModelApply, dispatchResponseModel, h, pyTruthy]
    | str s =>
      simp [pyTruthy] at ht
      subst ht
      simp [requestModelApply, dispatchResponseModel, h, pyTruthy]
    | arr items =>
      have hnil : items = [] := by
        cases items with
        | nil => rfl
        | cons a as => simp [pyTruthy] at ht
      subst hnil
      simp [requestModelApply, dispatchResponseModel, h, pyTruthy]
    | obj fields =>
      have hnil : fields = [] := by
        cases fields with
        | nil => rfl
        | cons f fs => simp [pyTruthy] at ht
      subst hnil
      simp [requestModelApply, dispatchResponseModel, h, pyTruthy]

theorem c4_response_model_dispatch_witness :
    requestModelApply (fun j => j) Json.null
        (Json.obj [("data", Json.arr [Json.str "a"])]) =
      RequestModelResult.one (Json.str "a") ∧
    requestModelApply (fun j => j) Json.null
        (Json.obj [("data", Json.obj [("mac", Json.str "x")])]) =
      RequestModelResult.one (Json.obj [("data", Json.obj [("mac", Json.str "x")])]) ∧
    requestModelApply (fun j => j) Json.null
        (Json.obj [("data", Json.arr [])]) =
      RequestModelResult.one Json.null :=
  ⟨(c4_response_model_dispatch (fun j => j) Json.null
      (Json.obj [("data", Json.arr [Json.str "a"])])).1
      (Json.str "a") [] rfl,
   (c4_response_model_dispatch (fun j => j) Json.null
      (Json.obj [("data", Json.obj [("mac", Json.str "x")])])).2.1
      (Json.obj [("mac", Json.str "x")]) rfl (fun items h => by cases h) rfl,
   (c4_response_model_dispatch (fun j => j) Json.null
      (Json.obj [("data", Json.arr [])])).2.2
      (Json.arr []) rfl rfl⟩

/-! ## Claim C10: malformed list envelopes -/

/-- C10: for every response dictionary that lacks a `"data"` key or
whose `"data"` value is not a list, `_get_list_response` (and hence
each collection method built on it) returns the empty list without
raising, whatever the model constructor does. -/
theorem c10_malformed_envelope {M : Type} (construct : Json → Except String M)
    (resp : Json) (h : dataMissingOrNotList resp = true) :
    getListResponse construct resp = Except.ok ([] : List M) := by
  unfold getListResponse
  unfold dataMissingOrNotList at h
  cases hg : jsonGet resp "data" with
  | none => rfl
  | some d =>
    cases d with
    | arr items => rw [hg] at h; exact Bool.noConfusion h
    | null => rfl
    | bool b => rfl
    | num n => rfl
    | str s => rfl
    | obj fields => rfl

theorem c10_malformed_envelope_witness :
    getListResponse (fun _ => Except.error "invalid")
        (Json.obj [("meta", Json.obj [("rc", Json.str "ok")])]) =
      Except.ok ([] : List Unit) ∧
    getListResponse (fun _ => Except.error "invalid")
        (Json.obj [("data", Json.str "oops")]) =
      Except.ok ([] : List Unit) :=
  ⟨c10_malformed_envelope _ _ (by decide),
   c10_malformed_envelope _ _ (by decide)⟩

/-! ## Shared validator primitives for the pydantic models -/

/-- Whether `e` is a successful computation (`raise` did not happen). -/
def exceptOk {E A : Type} : Except E A → Bool
  | .ok _ => true
  | .error _ => false

theorem exceptOk_unit {E : Type} (e : Except E Unit) (h : exceptOk e = true) :
    e = .ok () := by
  cases e with
  | ok u => cases u; rfl
  | error x => cases h

theorem exceptOk_bind_unit {E B : Type} (a : Except E Unit) (k : Unit → Except E B) :
    exceptOk (a >>= k) = (exceptOk a && exceptOk (k ())) := by
  cases a with
  | ok u => cases u; rfl
  | error e => rfl

theorem exceptOk_pure {E A : Type} (x : A) :
    exceptOk (pure x : Except E A) = true := rfl

theorem exceptOk_ok {E A : Type} (x : A) :
    exceptOk (Except.ok x : Except E A) = true := rfl

theorem exceptOk_map {E A B : Type} (f : A → B) (e : Except E A) :
    exceptOk (f <$> e) = exceptOk e := by
  cases e <;> rfl

theorem exceptOk_ite_ok {E : Type} (c : Prop) [Decidable c] (e : E) :
    exceptOk (if c then Except.ok () else Except.error e) = decide c := by
  by_cases h : c <;> simp [h, exceptOk]

theorem exceptOk_ite_err {E : Type} (c : Prop) [Decidable c] (e : E) :
    exceptOk (if c then Except.error e else Except.ok ()) = !(decide c) := by
  by_cases h : c <;> simp [h, exceptOk]

def isHexDigitChar (c : Char) : Bool :=
  c.isDigit || (('a' ≤ c) && (c ≤ 'f')) || (('A' ≤ c) && (c ≤ 'F'))

def isMacSep (c : Char) : Bool := c = ':' || c = '-'

/-- The regular expression MAC_PATTERN of devices.py line 16 and
validators.py line 9, anchored at both ends: six hex-digit pairs joined
by a colon or hyphen separator. -/
def macPatternMatch (s : String) : Bool :=
  match s.toList with
  | [a1, a2, s1, b1, b2, s2, c1, c2, s3, d1, d2, s4, e1, e2, s5, f1, f2] =>
    isHexDigitChar a1 && isHexDigitChar a2 && isMacSep s1 &&
    isHexDigitChar b1 && isHexDigitChar b2 && isMacSep s2 &&
    isHexDigitChar c1 && isHexDigitChar c2 && isMacSep s3 &&
    isHexDigitChar d1 && isHexDigitChar d2 && isMacSep s4 &&
    isHexDigitChar e1 && isHexDigitChar e2 && isMacSep s5 &&
    isHexDigitChar f1 && isHexDigitChar f2
  | _ => false

/-- Python `str.split(sep)` for a one-character separator. -/
def splitOnChar (sep : Char) : List Char → List (List Char)
  | [] => [[]]
  | c :: rest =>
    if c = sep then [] :: splitOnChar sep rest
    else
      match splitOnChar sep rest with
      | s :: ss => (c :: s) :: ss
      | [] => [[c]]

def decimalValue (cs : List Char) : Nat :=
  cs.foldl (fun n c => n * 10 + (c.toNat - 48)) 0

/-- One dotted-quad octet as accepted by Python `ipaddress.IPv4Address`:
1-3 digits, value at most 255, no leading zero (except `"0"` itself). -/
def validOctet (cs : List Char) : Bool :=
  (cs.length = 1 || cs.length = 2 || cs.length = 3) &&
  cs.all Char.isDigit &&
  (cs.headD '0' ≠ '0' || cs.length = 1) &&
  decimalValue cs ≤ 255

/-- Python `ipaddress.IPv4Address(v)` succeeding on the string `v`. -/
def isValidIPv4 (s : String) : Bool :=
  match splitOnChar '.' s.toList with
  | [a, b, c, d] => validOctet a && validOctet b && validOctet c && validOctet d
  | _ => false

/-- The validator `validate_mac` (devices.py lines 161-167 / 316-322). -/
def validateMac (v : String) : Except String Unit :=
  if macPatternMatch v then .ok () else .error "Invalid MAC address format"

/-- The validator `validate_ip` (devices.py lines 169-179, validators.py lines 87-99). -/
def validateIp (v : String) : Except String Unit :=
  if isValidIPv4 v then .ok () else .error "Invalid IP address"

/-- The `str_min_length=1` constraint from `model_config` on the
devices.py models. -/
def requireNonEmptyStr (v : String) : Except String Unit :=
  if v = "" then .error "String should have at least 1 character" else .ok ()

/-- A `Field(le=0)` numeric constraint. -/
def fieldLe0 (v : Int) : Except String Unit :=
  if v ≤ 0 then .ok () else .error "Input should be less than or equal to 0"

/-- A `Field(ge=0)` numeric constraint. -/
def fieldGe0 (v : Int) : Except String Unit :=
  if 0 ≤ v then .ok () else .error "Input should be greater than or equal to 0"

/-- A `Field(ge=1)` numeric constraint. -/
def fieldGe1 (v : Int) : Except String Unit :=
  if 1 ≤ v then .ok () else .error "Input should be greater than or equal to 1"

/-- A `Field(ge=lo, le=hi)` constraint on an optional int. -/
def optFieldRange (v : Option Int) (lo hi : Int) : Except String Unit :=
  match v with
  | none => .ok ()
  | some x => if lo ≤ x ∧ x ≤ hi then .ok () else .error "Input should be in range"

/-- A `Field(le=0)` constraint on an optional float. -/
def optFieldLe0Rat (v : Option Rat) : Except String Unit :=
  match v with
  | none => .ok ()
  | some x =>
    if x ≤ 0 then .ok () else .error "Input should be less than or equal to 0"

/-- A `Field(ge=lo, le=hi)` constraint on a required int. -/
def fieldRange (v lo hi : Int) : Except String Unit :=
  if lo ≤ v ∧ v ≤ hi then .ok () else .error "Input should be in range"

/-! ## `RadioSettings` (wireless.py lines 10-83) -/

structure RadioSettingsInput where
  name : String
  enabled : Bool
  radio : String
  channel : Int
  channel_width : Int
  tx_power : Int
  tx_power_mode : String

/-- wireless.py lines 21-41, `validate_radio`: with a `+` the string
must split into exactly a base type and a protocol; `ng` takes no
protocol, `na` only `ac`/`ax`, `6e` only `ax`. -/
def rsValidateRadio (v : String) : Except String Unit :=
  match (splitOnChar '+' v.toList).map (fun cs => String.mk cs) with
  | [t, p] =>
    if ¬ (t = "ng" ∨ t = "na" ∨ t = "6e") then .error "Invalid radio type"
    else if t = "ng" then .error "Invalid radio type"
    else if t = "na" ∧ ¬ (p = "ac" ∨ p = "ax") then
      .error "5GHz radio must use AC or AX"
    else if t = "6e" ∧ p ≠ "ax" then .error "6GHz radio only supports AX"
    else .ok ()
  | [_] =>
    if v = "ng" ∨ v = "na" ∨ v = "6e" then .ok ()
    else .error "Invalid radio type"
  | _ => .error "too many values to unpack"

/-- The value `radio.split("+")[0]`: the base radio type without the protocol. -/
def baseRadioOf (radioStr : String) : String :=
  String.mk ((splitOnChar '+' radioStr.toList).headD [])

/-- The channel checks of wireless.py lines 52-57, against a base radio
type: 2.4 GHz channels 1-14, 5 GHz 36-165, 6 GHz 1-195. -/
def rsChannelCheck (radio : String) (v : Int) : Except String Unit :=
  if radio = "ng" ∧ ¬ (1 ≤ v ∧ v ≤ 14) then .error "Invalid 2.4GHz channel"
  else if radio = "na" ∧ ¬ (36 ≤ v ∧ v ≤ 165) then .error "Invalid 5GHz channel"
  else if radio = "6e" ∧ ¬ (1 ≤ v ∧ v ≤ 195) then .error "Invalid 6GHz channel"
  else .ok ()

/-- wireless.py lines 43-59, `validate_channel`. -/
def rsValidateChannel (radioStr : String) (v : Int) : Except String Unit :=
  rsChannelCheck (baseRadioOf radioStr) v

/-- wireless.py lines 61-67, `validate_channel_width` (RadioSettings):
only 20, 40, 80 and 160 MHz are accepted. -/
def rsValidateChannelWidth (v : Int) : Except String Unit :=
  if v = 20 ∨ v = 40 ∨ v = 80 ∨ v = 160 then .ok ()
  else .error "Invalid channel width"

/-- wireless.py lines 69-75, `validate_tx_power`. -/
def rsValidateTxPower (v : Int) : Except String Unit :=
  if 0 ≤ v ∧ v ≤ 30 then .ok ()
  else .error "TX power must be between 0 and 30"

/-- wireless.py lines 77-83, `validate_tx_power_mode`. -/
def rsValidateTxPowerMode (v : String) : Except String Unit :=
  if v = "auto" ∨ v = "medium" ∨ v = "high" ∨ v = "low" ∨ v = "custom" then .ok ()
  else .error "Invalid TX power mode"

/-- Constructing a `RadioSettings`: pydantic runs the field validators
in field-declaration order (name, enabled, radio, channel,
channel_width, tx_power, tx_power_mode); `validate_channel` sees the
already-validated `radio` in `info.data`. -/
def RadioSettings.construct (i : RadioSettingsInput) :
    Except String RadioSettingsInput := do
  let _ ← rsValidateRadio i.radio
  let _ ← rsValidateChannel i.radio i.channel
  let _ ← rsValidateChannelWidth i.channel_width
  let _ ← rsValidateTxPower i.tx_power
  let _ ← rsValidateTxPowerMode i.tx_power_mode
  pure i

/-! ## `WifiStats` (devices.py lines 213-322) -/

/-- devices.py lines 19-24 / enums.py: `RadioType`. `sixE` is `"6e"`. -/
inductive RadioType where
  | ng
  | na
  | sixE
deriving DecidableEq

/-- devices.py lines 27-33: `RadioProto`. -/
inductive RadioProto where
  | ng
  | ac
  | ax
  | be
deriving DecidableEq

/-- The required `WifiStats` fields plus the optionals the claims
exercise, in declaration order; the remaining optional fields are not
supplied (their validators are skipped for `None`). -/
structure WifiStatsInput where
  ap_mac : String
  channel : Int
  radio : RadioType
  radio_proto : RadioProto
  essid : String
  bssid : String
  signal : Int
  noise : Int
  tx_rate : Int
  rx_rate : Int
  tx_power : Int
  tx_retries : Int
  satisfaction : Option Int := none
  channel_width : Option Int := none

/-- devices.py lines 265-271, `validate_dbm` on signal and noise. -/
def wsValidateDbm (v : Int) : Except String Unit :=
  if ¬ (-100 ≤ v ∧ v ≤ 0) then .error "dBm value must be between -100 and 0"
  else .ok ()

/-- devices.py lines 273-295, the `validate_channel` FIELD validator:
it reads `info.data.get("radio")`, but `radio` is declared after
`channel`, so at validation time `radio` is never present and the
validator returns `v` unchecked.  The effective check is the model
validator `validate_channel_radio` below. -/
def wsValidateChannelField (_v : Int) : Except String Unit := .ok ()

/-- devices.py lines 297-306, model validator `validate_channel_radio`:
2.4 GHz channels 1-14, 5 GHz 36-165, 6 GHz 1-233. -/
def wsValidateChannelRadio (radio : RadioType) (channel : Int) : Except String Unit :=
  if radio = RadioType.na ∧ ¬ (36 ≤ channel ∧ channel ≤ 165) then
    .error "5 GHz channel must be between 36 and 165"
  else if radio = RadioType.ng ∧ ¬ (1 ≤ channel ∧ channel ≤ 14) then
    .error "2.4 GHz channel must be between 1 and 14"
  else if radio = RadioType.sixE ∧ ¬ (1 ≤ channel ∧ channel ≤ 233) then
    .error "6 GHz channel must be between 1 and 233"
  else .ok ()

/-- devices.py lines 308-314, `validate_channel_width` (WifiStats):
only 20, 40, 80 and 160 MHz are accepted. -/
def wsValidateChannelWidth (v : Option Int) : Except String Unit :=
  match v with
  | none => .ok ()
  | some x =>
    if x = 20 ∨ x = 40 ∨ x = 80 ∨ x = 160 then .ok ()
    else .error "Channel width must be 20, 40, 80, or 160 MHz"

/-- Constructing a `WifiStats`: field constraints and field validators
in declaration order, then the model validator. -/
def WifiStats.construct (i : WifiStatsInput) : Except String WifiStatsInput := do
  let _ ← validateMac i.ap_mac
  let _ ← wsValidateChannelField i.channel
  let _ ← requireNonEmptyStr i.essid
  let _ ← validateMac i.bssid
  let _ ← fieldLe0 i.signal
  let _ ← wsValidateDbm i.signal
  let _ ← fieldLe0 i.noise
  let _ ← wsValidateDbm i.noise
  let _ ← fieldGe0 i.tx_rate
  let _ ← fieldGe0 i.rx_rate
  let _ ← fieldGe0 i.tx_retries
  let _ ← optFieldRange i.satisfaction 0 100
  let _ ← wsValidateChannelWidth i.channel_width
  let _ ← wsValidateChannelRadio i.radio i.channel
  pure i

/-- mixins.py lines 128-136, `WifiMixin.validate_channel_width`: this
variant also accepts 320 MHz. -/
def wifiMixinValidateChannelWidth (v : Option Int) : Except String Unit :=
  match v with
  | none => .ok ()
  | some x =>
    if x = 20 ∨ x = 40 ∨ x = 80 ∨ x = 160 ∨ x = 320 then .ok ()
    else .error "Invalid channel width"

/-! ## `PortStats` (devices.py lines 63-210) -/

/-- Required `PortStats` fields in declaration order, plus the SFP
power readings the claims exercise. -/
structure PortStatsInput where
  port_idx : Int
  name : String
  media : String
  port_poe : Bool
  speed : Int
  up : Bool
  is_uplink : Bool
  mac : String
  rx_bytes : Int
  tx_bytes : Int
  rx_packets : Int
  tx_packets : Int
  rx_errors : Int
  tx_errors : Int
  type : String
  sfp_rxpower : Option Rat := none
  sfp_txpower : Option Rat := none

/-- Constructing a `PortStats`: `port_idx` has `ge=1`, the byte and
packet counters `ge=0`, `mac` the MAC pattern, the strings
`str_min_length=1`, and `sfp_rxpower`/`sfp_txpower` are optional floats
with `le=0` (devices.py lines 92-97). -/
def PortStats.construct (i : PortStatsInput) : Except String PortStatsInput := do
  let _ ← fieldGe1 i.port_idx
  let _ ← requireNonEmptyStr i.name
  let _ ← requireNonEmptyStr i.media
  let _ ← fieldGe0 i.speed
  let _ ← validateMac i.mac
  let _ ← fieldGe0 i.rx_bytes
  let _ ← fieldGe0 i.tx_bytes
  let _ ← fieldGe0 i.rx_packets
  let _ ← fieldGe0 i.tx_packets
  let _ ← fieldGe0 i.rx_errors
  let _ ← fieldGe0 i.tx_errors
  let _ ← requireNonEmptyStr i.type
  let _ ← optFieldLe0Rat i.sfp_rxpower
  let _ ← optFieldLe0Rat i.sfp_txpower
  pure i

/-! ## `Client` (devices.py lines 325-494) -/

/-- Required `Client` fields in declaration order (the many optional
fields are not supplied). -/
structure ClientInput where
  site_id : String
  mac : String
  hostname : String
  ip : String
  last_ip : String
  is_guest : Bool
  is_wired : Bool
  network : String
  network_id : String
  uptime : Int
  last_seen : Int
  first_seen : Int
  tx_bytes : Int
  rx_bytes : Int
  tx_packets : Int
  rx_packets : Int

/-- devices.py lines 478-484, `validate_first_seen`: raises when
`first_seen > last_seen`; `last_seen` is declared before `first_seen`,
so it is already in `info.data` when this validator runs. -/
def clientValidateFirstSeen (firstSeen lastSeen : Int) : Except String Unit :=
  if firstSeen > lastSeen then .error "first_seen must be before last_seen"
  else .ok ()

/-- Constructing a `Client`: validators in field-declaration order. -/
def Client.construct (i : ClientInput) : Except String ClientInput := do
  let _ ← requireNonEmptyStr i.site_id
  let _ ← validateMac i.mac
  let _ ← requireNonEmptyStr i.hostname
  let _ ← validateIp i.ip
  let _ ← validateIp i.last_ip
  let _ ← requireNonEmptyStr i.network
  let _ ← requireNonEmptyStr i.network_id
  let _ ← fieldGe0 i.uptime
  let _ ← clientValidateFirstSeen i.first_seen i.last_seen
  let _ ← fieldGe0 i.tx_bytes
  let _ ← fieldGe0 i.rx_bytes
  let _ ← fieldGe0 i.tx_packets
  let _ ← fieldGe0 i.rx_packets
  pure i

/-! ## `VLANConfiguration` (network.py lines 59-96) -/

structure VLANConfigurationInput where
  vlan_id : Int
  name : String
  enabled : Bool
  subnet : String
  tagged_ports : Option (List Int) := none
  untagged_ports : Option (List Int) := none

/-- Renders Python's set display for the non-empty set of conflicting
ports, in the ascending iteration order CPython uses for small
non-negative ints. -/
def renderPorts : List Int → String
  | [] => ""
  | [a] => toString a
  | a :: b :: rest => toString a ++ ", " ++ renderPorts (b :: rest)

/-- Python `common_ports = set(self.tagged_ports) & set(self.untagged_ports)`,
kept as the deduplicated list of tagged ports that also occur among the
untagged ports. -/
def vlanCommonPorts (tl ul : List Int) : List Int :=
  (tl.filter (fun q => decide (q ∈ ul))).dedup

/-- network.py lines 75-96, model validator `validate_ports`:
`if self.tagged_ports and self.untagged_ports` (both truthy, i.e.
non-`None` and non-empty), compute the common ports and raise naming
them when there are any. -/
def vlanValidatePorts (tagged untagged : Option (List Int)) : Except String Unit :=
  match tagged, untagged with
  | some tl, some ul =>
    if tl ≠ [] ∧ ul ≠ [] then
      if vlanCommonPorts tl ul ≠ [] then
        .error ("Ports \x7b" ++ renderPorts (vlanCommonPorts tl ul) ++
          "\x7d cannot be both tagged and untagged")
      else .ok ()
    else .ok ()
  | _, _ => .ok ()

/-- Constructing a `VLANConfiguration`: `vlan_id` has `ge=1, le=4094`,
`subnet` runs `validate_ip`, then the model validator
`validate_ports`. -/
def VLANConfiguration.construct (i : VLANConfigurationInput) :
    Except String VLANConfigurationInput := do
  let _ ← fieldRange i.vlan_id 1 4094
  let _ ← validateIp i.subnet
  let _ ← vlanValidatePorts i.tagged_ports i.untagged_ports
  pure i

/-! ## Construction characterizations -/

theorem rsConstruct_ok_iff (r : RadioSettingsInput) :
    exceptOk (RadioSettings.construct r) = true ↔
      (exceptOk (rsValidateRadio r.radio) = true ∧
       exceptOk (rsValidateChannel r.radio r.channel) = true ∧
       exceptOk (rsValidateChannelWidth r.channel_width) = true ∧
       exceptOk (rsValidateTxPower r.tx_power) = true ∧
       exceptOk (rsValidateTxPowerMode r.tx_power_mode) = true) := by
  simp [RadioSettings.construct, exceptOk_bind_unit, exceptOk_map,
    exceptOk_pure, exceptOk_ok, Bool.and_eq_true, and_assoc]

theorem wsConstruct_ok_iff (w : WifiStatsInput) :
    exceptOk (WifiStats.construct w) = true ↔
      (exceptOk (validateMac w.ap_mac) = true ∧
       exceptOk (requireNonEmptyStr w.essid) = true ∧
       exceptOk (validateMac w.bssid) = true ∧
       exceptOk (fieldLe0 w.signal) = true ∧
       exceptOk (wsValidateDbm w.signal) = true ∧
       exceptOk (fieldLe0 w.noise) = true ∧
       exceptOk (wsValidateDbm w.noise) = true ∧
       exceptOk (fieldGe0 w.tx_rate) = true ∧
       exceptOk (fieldGe0 w.rx_rate) = true ∧
       exceptOk (fieldGe0 w.tx_retries) = true ∧
       exceptOk (optFieldRange w.satisfaction 0 100) = true ∧
       exceptOk (wsValidateChannelWidth w.channel_width) = true ∧
       exceptOk (wsValidateChannelRadio w.radio w.channel) = true) := by
  simp [WifiStats.construct, exceptOk_bind_unit, exceptOk_map,
    exceptOk_pure, exceptOk_ok, wsValidateChannelField,
    Bool.and_eq_true, and_assoc]

theorem portConstruct_ok_iff (p : PortStatsInput) :
    exceptOk (PortStats.construct p) = true ↔
      (exceptOk (fieldGe1 p.port_idx) = true ∧
       exceptOk (requireNonEmptyStr p.name) = true ∧
       exceptOk (requireNonEmptyStr p.media) = true ∧
       exceptOk (fieldGe0 p.speed) = true ∧
       exceptOk (validateMac p.mac) = true ∧
       exceptOk (fieldGe0 p.rx_bytes) = true ∧
       exceptOk (fieldGe0 p.tx_bytes) = true ∧
       exceptOk (fieldGe0 p.rx_packets) = true ∧
       exceptOk (fieldGe0 p.tx_packets) = true ∧
       exceptOk (fieldGe0 p.rx_errors) = true ∧
       exceptOk (fieldGe0 p.tx_errors) = true ∧
       exceptOk (requireNonEmptyStr p.type) = true ∧
       exceptOk (optFieldLe0Rat p.sfp_rxpower) = true ∧
       exceptOk (optFieldLe0Rat p.sfp_txpower) = true) := by
  simp [PortStats.construct, exceptOk_bind_unit, exceptOk_map,
    exceptOk_pure, exceptOk_ok, Bool.and_eq_true, and_assoc]

theorem clientConstruct_ok_iff (c : ClientInput) :
    exceptOk (Client.construct c) = true ↔
      (exceptOk (requireNonEmptyStr c.site_id) = true ∧
       exceptOk (validateMac c.mac) = true ∧
       exceptOk (requireNonEmptyStr c.hostname) = true ∧
       exceptOk (validateIp c.ip) = true ∧
       exceptOk (validateIp c.last_ip) = true ∧
       exceptOk (requireNonEmptyStr c.network) = true ∧
       exceptOk (requireNonEmptyStr c.network_id) = true ∧
       exceptOk (fieldGe0 c.uptime) = true ∧
       exceptOk (clientValidateFirstSeen c.first_seen c.last_seen) = true ∧
       exceptOk (fieldGe0 c.tx_bytes) = true ∧
       exceptOk (fieldGe0 c.rx_bytes) = true ∧
       exceptOk (fieldGe0 c.tx_packets) = true ∧
       exceptOk (fieldGe0 c.rx_packets) = true) := by
  simp [Client.construct, exceptOk_bind_unit, exceptOk_map,
    exceptOk_pure, exceptOk_ok, Bool.and_eq_true, and_assoc]

/-! ## Band-range lemmas -/

theorem wsChannelRadio_ng_iff (c : Int) :
    exceptOk (wsValidateChannelRadio RadioType.ng c) = true ↔
      1 ≤ c ∧ c ≤ 14 := by
  by_cases h : 1 ≤ c ∧ c ≤ 14 <;> simp [wsValidateChannelRadio, h, exceptOk]

theorem wsChannelRadio_na_iff (c : Int) :
    exceptOk (wsValidateChannelRadio RadioType.na c) = true ↔
      36 ≤ c ∧ c ≤ 165 := by
  by_cases h : 36 ≤ c ∧ c ≤ 165 <;> simp [wsValidateChannelRadio, h, exceptOk]

theorem wsChannelRadio_6e_iff (c : Int) :
    exceptOk (wsValidateChannelRadio RadioType.sixE c) = true ↔
      1 ≤ c ∧ c ≤ 233 := by
  by_cases h : 1 ≤ c ∧ c ≤ 233 <;> simp [wsValidateChannelRadio, h, exceptOk]

theorem rsChannel_ng_iff (c : Int) :
    exceptOk (rsValidateChannel "ng" c) = true ↔ 1 ≤ c ∧ c ≤ 14 := by
  have hb : baseRadioOf "ng" = "ng" := by decide
  unfold rsValidateChannel
  rw [hb]
  by_cases h : 1 ≤ c ∧ c ≤ 14 <;> simp [rsChannelCheck, h, exceptOk]

theorem rsChannel_na_iff (c : Int) :
    exceptOk (rsValidateChannel "na" c) = true ↔ 36 ≤ c ∧ c ≤ 165 := by
  have hb : baseRadioOf "na" = "na" := by decide
  unfold rsValidateChannel
  rw [hb]
  by_cases h : 36 ≤ c ∧ c ≤ 165 <;> simp [rsChannelCheck, h, exceptOk]

theorem rsChannel_6e_iff (c : Int) :
    exceptOk (rsValidateChannel "6e" c) = true ↔ 1 ≤ c ∧ c ≤ 195 := by
  have hb : baseRadioOf "6e" = "6e" := by decide
  unfold rsValidateChannel
  rw [hb]
  by_cases h : 1 ≤ c ∧ c ≤ 195 <;> simp [rsChannelCheck, h, exceptOk]

theorem rsValidateRadio_ng_ok : exceptOk (rsValidateRadio "ng") = true := by decide

theorem rsValidateRadio_na_ok : exceptOk (rsValidateRadio "na") = true := by decide

theorem rsValidateRadio_6e_ok : exceptOk (rsValidateRadio "6e") = true := by decide

/-! ## Claim C5: channel/radio band ranges -/

/-- All RadioSettings validators other than radio/channel accept. -/
def rsOthersValid (i : RadioSettingsInput) : Prop :=
  exceptOk (rsValidateChannelWidth i.channel_width) = true ∧
  exceptOk (rsValidateTxPower i.tx_power) = true ∧
  exceptOk (rsValidateTxPowerMode i.tx_power_mode) = true

/-- All WifiStats validators other than the channel/radio model
validator accept. -/
def wsOthersValidChannel (w : WifiStatsInput) : Prop :=
  exceptOk (validateMac w.ap_mac) = true ∧
  exceptOk (requireNonEmptyStr w.essid) = true ∧
  exceptOk (validateMac w.bssid) = true ∧
  exceptOk (fieldLe0 w.signal) = true ∧
  exceptOk (wsValidateDbm w.signal) = true ∧
  exceptOk (fieldLe0 w.noise) = true ∧
  exceptOk (wsValidateDbm w.noise) = true ∧
  exceptOk (fieldGe0 w.tx_rate) = true ∧
  exceptOk (fieldGe0 w.rx_rate) = true ∧
  exceptOk (fieldGe0 w.tx_retries) = true ∧
  exceptOk (optFieldRange w.satisfaction 0 100) = true ∧
  exceptOk (wsValidateChannelWidth w.channel_width) = true

instance (i : RadioSettingsInput) : Decidable (rsOthersValid i) := by
  unfold rsOthersValid; infer_instance

instance (w : WifiStatsInput) : Decidable (wsOthersValidChannel w) := by
  unfold wsOthersValidChannel; infer_instance

/-- C5 (corrected): with all other fields valid, `WifiStats` accepts
exactly the documented band ranges including both boundaries (2.4 GHz
1-14, 5 GHz 36-165, 6 GHz 1-233); `RadioSettings`, however, bounds the
6 GHz band at 195, so its 6 GHz channels are exactly 1-195 and channel
233 raises there (the 2.4 GHz and 5 GHz ranges agree). -/
theorem c5_channel_band_ranges (w : WifiStatsInput) (r : RadioSettingsInput)
    (hw : wsOthersValidChannel w) (hr : rsOthersValid r) :
    ((w.radio = RadioType.ng →
        (exceptOk (WifiStats.construct w) = true ↔ 1 ≤ w.channel ∧ w.channel ≤ 14)) ∧
     (w.radio = RadioType.na →
        (exceptOk (WifiStats.construct w) = true ↔ 36 ≤ w.channel ∧ w.channel ≤ 165)) ∧
     (w.radio = RadioType.sixE →
        (exceptOk (WifiStats.construct w) = true ↔ 1 ≤ w.channel ∧ w.channel ≤ 233))) ∧
    ((r.radio = "ng" →
        (exceptOk (RadioSettings.construct r) = true ↔ 1 ≤ r.channel ∧ r.channel ≤ 14)) ∧
     (r.radio = "na" →
        (exceptOk (RadioSettings.construct r) = true ↔ 36 ≤ r.channel ∧ r.channel ≤ 165)) ∧
     (r.radio = "6e" →
        (exceptOk (RadioSettings.construct r) = true ↔ 1 ≤ r.channel ∧ r.channel ≤ 195))) := by
  obtain ⟨hw1, hw2, hw3, hw4, hw5, hw6, hw7, hw8, hw9, hw10, hw11, hw12⟩ := hw
  obtain ⟨hr1, hr2, hr3⟩ := hr
  constructor
  · refine ⟨?_, ?_, ?_⟩ <;> intro hradio <;>
      rw [wsConstruct_ok_iff, hradio] <;>
      simp [hw1, hw2, hw3, hw4, hw5, hw6, hw7, hw8, hw9, hw10, hw11, hw12,
        wsChannelRadio_ng_iff, wsChannelRadio_na_iff, wsChannelRadio_6e_iff]
  · refine ⟨?_, ?_, ?_⟩ <;> intro hradio <;>
      rw [rsConstruct_ok_iff, hradio] <;>
      simp [hr1, hr2, hr3, rsValidateRadio_ng_ok, rsValidateRadio_na_ok,
        rsValidateRadio_6e_ok, rsChannel_ng_iff, rsChannel_na_iff, rsChannel_6e_iff]

theorem c5_channel_band_ranges_witness :
    exceptOk (WifiStats.construct ⟨"00:11:22:33:44:55", 233, RadioType.sixE,
      RadioProto.ax, "test", "00:11:22:33:44:55", -70, -90, 100, 100, 20, 0,
      none, none⟩) = true ∧
    exceptOk (WifiStats.construct ⟨"00:11:22:33:44:55", 1, RadioType.ng,
      RadioProto.ng, "test", "00:11:22:33:44:55", -70, -90, 100, 100, 20, 0,
      none, none⟩) = true ∧
    exceptOk (RadioSettings.construct ⟨"Radio2", true, "6e", 195, 160, 25,
      "auto"⟩) = true ∧
    exceptOk (RadioSettings.construct ⟨"Radio1", true, "na", 165, 80, 23,
      "auto"⟩) = true := by
  refine ⟨?_, ?_, ?_, ?_⟩
  · exact ((c5_channel_band_ranges
      ⟨"00:11:22:33:44:55", 233, RadioType.sixE, RadioProto.ax, "test",
        "00:11:22:33:44:55", -70, -90, 100, 100, 20, 0, none, none⟩
      ⟨"Radio2", true, "6e", 195, 160, 25, "auto"⟩
      (by decide) (by decide)).1.2.2 rfl).mpr (by decide)
  · exact ((c5_channel_band_ranges
      ⟨"00:11:22:33:44:55", 1, RadioType.ng, RadioProto.ng, "test",
        "00:11:22:33:44:55", -70, -90, 100, 100, 20, 0, none, none⟩
      ⟨"Radio2", true, "6e", 195, 160, 25, "auto"⟩
      (by decide) (by decide)).1.1 rfl).mpr (by decide)
  · exact ((c5_channel_band_ranges
      ⟨"00:11:22:33:44:55", 1, RadioType.ng, RadioProto.ng, "test",
        "00:11:22:33:44:55", -70, -90, 100, 100, 20, 0, none, none⟩
      ⟨"Radio2", true, "6e", 195, 160, 25, "auto"⟩
      (by decide) (by decide)).2.2.2 rfl).mpr (by decide)
  · exact ((c5_channel_band_ranges
      ⟨"00:11:22:33:44:55", 1, RadioType.ng, RadioProto.ng, "test",
        "00:11:22:33:44:55", -70, -90, 100, 100, 20, 0, none, none⟩
      ⟨"Radio1", true, "na", 165, 80, 23, "auto"⟩
      (by decide) (by decide)).2.2.1 rfl).mpr (by decide)

/-- C5 counterexample: constructing a `RadioSettings` on the 6 GHz band
with the claimed boundary channel 233 raises a validation error
(wireless.py bounds the 6 GHz band at 195, not 233). -/
theorem c5_counterexample :
    exceptOk (RadioSettings.construct ⟨"Radio2", true, "6e", 233, 160, 25,
      "auto"⟩) = false := by decide

/-! ## Claim C6: channel-width sets -/

/-- C6 (corrected): only the `WifiMixin` variant accepts
{20, 40, 80, 160, 320}; the `WifiStats` (devices.py) and
`RadioSettings` (wireless.py) validators accept exactly
{20, 40, 80, 160} and reject 320 MHz. -/
theorem c6_channel_width_sets (v : Int) :
    (exceptOk (wifiMixinValidateChannelWidth (some v)) = true ↔
      v = 20 ∨ v = 40 ∨ v = 80 ∨ v = 160 ∨ v = 320) ∧
    (exceptOk (wsValidateChannelWidth (some v)) = true ↔
      v = 20 ∨ v = 40 ∨ v = 80 ∨ v = 160) ∧
    (exceptOk (rsValidateChannelWidth v) = true ↔
      v = 20 ∨ v = 40 ∨ v = 80 ∨ v = 160) := by
  refine ⟨?_, ?_, ?_⟩
  · by_cases h : v = 20 ∨ v = 40 ∨ v = 80 ∨ v = 160 ∨ v = 320 <;>
      simp [wifiMixinValidateChannelWidth, h, exceptOk]
  · by_cases h : v = 20 ∨ v = 40 ∨ v = 80 ∨ v = 160 <;>
      simp [wsValidateChannelWidth, h, exceptOk]
  · by_cases h : v = 20 ∨ v = 40 ∨ v = 80 ∨ v = 160 <;>
      simp [rsValidateChannelWidth, h, exceptOk]

/-- C6 counterexample: constructing a `WifiStats` or a `RadioSettings`
with `channel_width = 320` and all other fields valid raises a
validation error, although the claim says 320 MHz is accepted. -/
theorem c6_counterexample :
    exceptOk (WifiStats.construct ⟨"00:11:22:33:44:55", 36, RadioType.na,
      RadioProto.ax, "test", "00:11:22:33:44:55", -70, -90, 1000, 1000, 20, 0,
      none, some 320⟩) = false ∧
    exceptOk (RadioSettings.construct ⟨"Radio0", true, "na", 36, 320, 20,
      "auto"⟩) = false := by
  constructor
  · decide
  · decide

/-! ## Claim C7: negative-dBm fields -/

theorem optFieldLe0Rat_ok_iff (v : Option Rat) :
    exceptOk (optFieldLe0Rat v) = true ↔ ∀ x, v = some x → x ≤ 0 := by
  cases v with
  | none => simp [optFieldLe0Rat, exceptOk]
  | some x =>
    by_cases h : x ≤ 0 <;> simp [optFieldLe0Rat, h, exceptOk]

/-- All WifiStats validators other than the four on signal/noise accept. -/
def wsOthersValidDbm (w : WifiStatsInput) : Prop :=
  exceptOk (validateMac w.ap_mac) = true ∧
  exceptOk (requireNonEmptyStr w.essid) = true ∧
  exceptOk (validateMac w.bssid) = true ∧
  exceptOk (fieldGe0 w.tx_rate) = true ∧
  exceptOk (fieldGe0 w.rx_rate) = true ∧
  exceptOk (fieldGe0 w.tx_retries) = true ∧
  exceptOk (optFieldRange w.satisfaction 0 100) = true ∧
  exceptOk (wsValidateChannelWidth w.channel_width) = true ∧
  exceptOk (wsValidateChannelRadio w.radio w.channel) = true

instance (w : WifiStatsInput) : Decidable (wsOthersValidDbm w) := by
  unfold wsOthersValidDbm; infer_instance

/-- All PortStats validators other than the two SFP power checks accept. -/
def portOthersValid (p : PortStatsInput) : Prop :=
  exceptOk (fieldGe1 p.port_idx) = true ∧
  exceptOk (requireNonEmptyStr p.name) = true ∧
  exceptOk (requireNonEmptyStr p.media) = true ∧
  exceptOk (fieldGe0 p.speed) = true ∧
  exceptOk (validateMac p.mac) = true ∧
  exceptOk (fieldGe0 p.rx_bytes) = true ∧
  exceptOk (fieldGe0 p.tx_bytes) = true ∧
  exceptOk (fieldGe0 p.rx_packets) = true ∧
  exceptOk (fieldGe0 p.tx_packets) = true ∧
  exceptOk (fieldGe0 p.rx_errors) = true ∧
  exceptOk (fieldGe0 p.tx_errors) = true ∧
  exceptOk (requireNonEmptyStr p.type) = true

instance (p : PortStatsInput) : Decidable (portOthersValid p) := by
  unfold portOthersValid; infer_instance

/-- C7 (corrected): with all other fields valid, a `WifiStats` is
accepted iff signal and noise lie in [-100, 0] — the value 0 is
ACCEPTED (the `le=0` field bound and the validator both allow it), only
strictly positive (or below -100) values raise; a `PortStats` is
accepted iff each supplied SFP power reading is at most 0, so 0.0 is
ACCEPTED and only strictly positive readings raise. -/
theorem c7_dbm_zero_accepted (w : WifiStatsInput) (p : PortStatsInput)
    (hw : wsOthersValidDbm w) (hp : portOthersValid p) :
    (exceptOk (WifiStats.construct w) = true ↔
      (-100 ≤ w.signal ∧ w.signal ≤ 0 ∧ -100 ≤ w.noise ∧ w.noise ≤ 0)) ∧
    (exceptOk (PortStats.construct p) = true ↔
      ((∀ x, p.sfp_rxpower = some x → x ≤ 0) ∧
       (∀ x, p.sfp_txpower = some x → x ≤ 0))) := by
  obtain ⟨hw1, hw2, hw3, hw4, hw5, hw6, hw7, hw8, hw9⟩ := hw
  obtain ⟨hp1, hp2, hp3, hp4, hp5, hp6, hp7, hp8, hp9, hp10, hp11, hp12⟩ := hp
  constructor
  · rw [wsConstruct_ok_iff]
    simp only [hw1, hw2, hw3, hw4, hw5, hw6, hw7, hw8, hw9, true_and, and_true]
    simp only [fieldLe0, wsValidateDbm, exceptOk_ite_ok, exceptOk_ite_err,
      decide_eq_true_eq, Bool.not_eq_true', decide_eq_false_iff_not, not_not]
    constructor
    · intro h
      omega
    · intro h
      omega
  · rw [portConstruct_ok_iff]
    simp only [hp1, hp2, hp3, hp4, hp5, hp6, hp7, hp8, hp9, hp10, hp11, hp12,
      true_and, and_true]
    rw [optFieldLe0Rat_ok_iff, optFieldLe0Rat_ok_iff]

/-- C7 counterexample: a `WifiStats` with `signal = 0` and `noise = 0`
and a `PortStats` with `sfp_rxpower = 0.0` and `sfp_txpower = 0.0`
construct successfully, although the claim says a zero value must raise
a validation error. -/
theorem c7_counterexample :
    exceptOk (WifiStats.construct ⟨"00:11:22:33:44:55", 6, RadioType.ng,
      RadioProto.ng, "test", "00:11:22:33:44:55", 0, 0, 100, 100, 20, 0,
      none, none⟩) = true ∧
    exceptOk (PortStats.construct ⟨1, "Port 1", "SFP+", true, 10000, true,
      true, "00:11:22:33:44:55", 0, 0, 0, 0, 0, 0, "sfp", some 0,
      some 0⟩) = true := by
  constructor
  · decide
  · decide

theorem c7_dbm_zero_accepted_witness :
    exceptOk (WifiStats.construct ⟨"00:11:22:33:44:55", 6, RadioType.ng,
      RadioProto.ng, "test", "00:11:22:33:44:55", 0, -90, 100, 100, 20, 0,
      none, none⟩) = true ∧
    exceptOk (PortStats.construct ⟨1, "Port 1", "SFP+", true, 10000, true,
      true, "00:11:22:33:44:55", 0, 0, 0, 0, 0, 0, "sfp", some 0,
      none⟩) = true := by
  constructor
  · exact ((c7_dbm_zero_accepted
      ⟨"00:11:22:33:44:55", 6, RadioType.ng, RadioProto.ng, "test",
        "00:11:22:33:44:55", 0, -90, 100, 100, 20, 0, none, none⟩
      ⟨1, "Port 1", "SFP+", true, 10000, true, true, "00:11:22:33:44:55",
        0, 0, 0, 0, 0, 0, "sfp", some 0, none⟩
      (by decide) (by decide)).1).mpr (by decide)
  · exact ((c7_dbm_zero_accepted
      ⟨"00:11:22:33:44:55", 6, RadioType.ng, RadioProto.ng, "test",
        "00:11:22:33:44:55", 0, -90, 100, 100, 20, 0, none, none⟩
      ⟨1, "Port 1", "SFP+", true, 10000, true, true, "00:11:22:33:44:55",
        0, 0, 0, 0, 0, 0, "sfp", some 0, none⟩
      (by decide) (by decide)).2).mpr
      ⟨fun x hx => by cases hx; exact le_refl 0, fun x hx => by cases hx⟩

/-! ## Claim C8: first_seen / last_seen ordering -/

/-- All Client validators other than `validate_first_seen` accept. -/
def clientOthersValid (c : ClientInput) : Prop :=
  exceptOk (requireNonEmptyStr c.site_id) = true ∧
  exceptOk (validateMac c.mac) = true ∧
  exceptOk (requireNonEmptyStr c.hostname) = true ∧
  exceptOk (validateIp c.ip) = true ∧
  exceptOk (validateIp c.last_ip) = true ∧
  exceptOk (requireNonEmptyStr c.network) = true ∧
  exceptOk (requireNonEmptyStr c.network_id) = true ∧
  exceptOk (fieldGe0 c.uptime) = true ∧
  exceptOk (fieldGe0 c.tx_bytes) = true ∧
  exceptOk (fieldGe0 c.rx_bytes) = true ∧
  exceptOk (fieldGe0 c.tx_packets) = true ∧
  exceptOk (fieldGe0 c.rx_packets) = true

instance (c : ClientInput) : Decidable (clientOthersValid c) := by
  unfold clientOthersValid; infer_instance

/-- C8: with all other fields valid, constructing a `Client` succeeds
iff `first_seen ≤ last_seen`: it raises exactly when
`first_seen > last_seen`, and succeeds for `first_seen = last_seen` and
`first_seen < last_seen`. -/
theorem c8_first_seen_ordering (c : ClientInput) (h : clientOthersValid c) :
    exceptOk (Client.construct c) = true ↔ c.first_seen ≤ c.last_seen := by
  obtain ⟨h1, h2, h3, h4, h5, h6, h7, h8, h9, h10, h11, h12⟩ := h
  rw [clientConstruct_ok_iff]
  simp only [h1, h2, h3, h4, h5, h6, h7, h8, h9, h10, h11, h12,
    true_and, and_true]
  simp only [clientValidateFirstSeen, exceptOk_ite_err,
    Bool.not_eq_true', decide_eq_false_iff_not, not_lt]

theorem c8_first_seen_ordering_witness :
    exceptOk (Client.construct ⟨"site1", "00:11:22:33:44:55", "host",
      "192.168.1.10", "192.168.1.10", false, true, "LAN", "net1", 0,
      1000, 1000, 0, 0, 0, 0⟩) = true ∧
    exceptOk (Client.construct ⟨"site1", "00:11:22:33:44:55", "host",
      "192.168.1.10", "192.168.1.10", false, true, "LAN", "net1", 0,
      1000, 999, 0, 0, 0, 0⟩) = true := by
  constructor
  · exact (c8_first_seen_ordering ⟨"site1", "00:11:22:33:44:55", "host",
      "192.168.1.10", "192.168.1.10", false, true, "LAN", "net1", 0,
      1000, 1000, 0, 0, 0, 0⟩ (by decide)).mpr (by decide)
  · exact (c8_first_seen_ordering ⟨"site1", "00:11:22:33:44:55", "host",
      "192.168.1.10", "192.168.1.10", false, true, "LAN", "net1", 0,
      1000, 999, 0, 0, 0, 0⟩ (by decide)).mpr (by decide)

/-! ## Claim C9: VLAN tagged/untagged port disjointness -/

theorem renderPorts_mem : ∀ (l : List Int) (x : Int), x ∈ l →
    charsContain (renderPorts l).toList (toString x).toList = true := by
  intro l
  induction l with
  | nil => intro x hx; cases hx
  | cons a rest ih =>
    intro x hx
    cases rest with
    | nil =>
      have hxa : x = a := by
        cases hx with
        | head => rfl
        | tail _ h => cases h
      rw [hxa]
      exact charsContain_self _
    | cons b rest2 =>
      cases hx with
      | head =>
        rw [show renderPorts (a :: b :: rest2) =
          toString a ++ ", " ++ renderPorts (b :: rest2) from rfl]
        rw [toList_append, toList_append]
        exact charsContain_append_left _ _ _
          (charsContain_append_left _ _ _ (charsContain_self _))
      | tail _ hmem =>
        rw [show renderPorts (a :: b :: rest2) =
          toString a ++ ", " ++ renderPorts (b :: rest2) from rfl]
        rw [toList_append]
        exact charsContain_append_right _ _ _ (ih x hmem)

theorem vlanValidatePorts_conflict (tl ul : List Int) (p : Int)
    (hp : p ∈ tl) (hq : p ∈ ul) :
    ∃ msg, vlanValidatePorts (some tl) (some ul) = Except.error msg ∧
      strContainsB msg (toString p) = true := by
  have htl : tl ≠ [] := by intro h; rw [h] at hp; cases hp
  have hul : ul ≠ [] := by intro h; rw [h] at hq; cases hq
  have hmem : p ∈ vlanCommonPorts tl ul := by
    unfold vlanCommonPorts
    rw [List.mem_dedup, List.mem_filter]
    exact ⟨hp, by simpa using hq⟩
  have hne : vlanCommonPorts tl ul ≠ [] := by
    intro h; rw [h] at hmem; cases hmem
  refine ⟨"Ports \x7b" ++ renderPorts (vlanCommonPorts tl ul) ++
    "\x7d cannot be both tagged and untagged", ?_, ?_⟩
  · simp only [vlanValidatePorts]
    rw [if_pos ⟨htl, hul⟩, if_pos hne]
  · exact strContains_of_mid "Ports \x7b" (renderPorts (vlanCommonPorts tl ul))
      "\x7d cannot be both tagged and untagged" (toString p)
      (renderPorts_mem _ p hmem)

/-- Other VLANConfiguration validators accept. -/
def vlanOthersValid (i : VLANConfigurationInput) : Prop :=
  exceptOk (fieldRange i.vlan_id 1 4094) = true ∧
  exceptOk (validateIp i.subnet) = true

instance (i : VLANConfigurationInput) : Decidable (vlanOthersValid i) := by
  unfold vlanOthersValid; infer_instance

theorem vlanConstruct_eq_ports (i : VLANConfigurationInput)
    (h : vlanOthersValid i) :
    VLANConfiguration.construct i =
      (vlanValidatePorts i.tagged_ports i.untagged_ports >>= fun _ => pure i) := by
  obtain ⟨h1, h2⟩ := h
  unfold VLANConfiguration.construct
  rw [exceptOk_unit _ h1, exceptOk_unit _ h2]
  rfl

/-- C9: with the other fields valid, every successfully constructed
`VLANConfiguration` has disjoint tagged and untagged port lists, and a
port present in both lists makes construction raise a validation error
whose message names that port. -/
theorem c9_vlan_port_disjoint (i : VLANConfigurationInput) (tl ul : List Int)
    (p : Int) (hov : vlanOthersValid i)
    (ht : i.tagged_ports = some tl) (hu : i.untagged_ports = some ul) :
    (exceptOk (VLANConfiguration.construct i) = true →
      ∀ q, ¬ (q ∈ tl ∧ q ∈ ul)) ∧
    (p ∈ tl → p ∈ ul →
      ∃ msg, VLANConfiguration.construct i = Except.error msg ∧
        strContainsB msg (toString p) = true) := by
  constructor
  · intro hok q hmem
    obtain ⟨hq1, hq2⟩ := hmem
    obtain ⟨msg, hmsg, _⟩ := vlanValidatePorts_conflict tl ul q hq1 hq2
    rw [vlanConstruct_eq_ports i hov, ht, hu, hmsg] at hok
    exact Bool.noConfusion hok
  · intro hp hq
    obtain ⟨msg, hmsg, hcont⟩ := vlanValidatePorts_conflict tl ul p hp hq
    refine ⟨msg, ?_, hcont⟩
    rw [vlanConstruct_eq_ports i hov, ht, hu, hmsg]
    rfl

theorem c9_vlan_port_disjoint_witness :
    (∃ msg, VLANConfiguration.construct ⟨5, "iot", true, "192.168.1.0",
        some [1, 2], some [2, 3]⟩ = Except.error msg ∧
      strContainsB msg (toString (2 : Int)) = true) ∧
    ¬ ((1 : Int) ∈ [1, 2] ∧ (1 : Int) ∈ ([3] : List Int)) := by
  constructor
  · exact (c9_vlan_port_disjoint ⟨5, "iot", true, "192.168.1.0",
      some [1, 2], some [2, 3]⟩ [1, 2] [2, 3] 2
      (by decide) rfl rfl).2 (by decide) (by decide)
  · exact (c9_vlan_port_disjoint ⟨5, "iot", true, "192.168.1.0",
      some [1, 2], some [3]⟩ [1, 2] [3] 0
      (by decide) rfl rfl).1 (by decide) 1
